import Mathlib

/-! Flash programming algorithm (`Flash/FlashPrg.c`).

A shallow embedding of the five FlashOS entry points `Init`, `UnInit`,
`EraseChip`, `EraseSector` and `ProgramPage`.

The file-local variable `devAdr` is a field of the state.  Everything the
entry points call but do not define (the `w25qxx_*` driver, the STM32 HAL,
the CubeMX bring-up functions, the `LED_ON`/`LED_OFF` macros) is a parameter:
an environment `Env` that, for each external call and the current external
world, gives the value returned and the world afterwards.  Because `devAdr`
is `static`, no external function can read or write it, so the environment
acts on the external world only.

Every store to a global and every external call is appended, in program
order, to a trace kept in the state.

`unsigned long` is 32 bits wide on the target (Arm Cortex-M); values of that
type are natural numbers below `2 ^ 32`, and the one arithmetic operation of
the file, `adr - devAdr`, is taken modulo `2 ^ 32`.
-/

namespace FlashPrg

set_option linter.unusedVariables false

/-! ## Constants -/

/-- The macro `SECTOR_SIZE`. -/
def SECTOR_SIZE : Nat := 4096

/-- The macro `PAGE_SIZE`. -/
def PAGE_SIZE : Nat := 256

/-- The macro `DEVICE_ID`. -/
def DEVICE_ID : Int := 0xEF16

/-- Number of values of `unsigned long` on the target. -/
def ULONG_MOD : Nat := 2 ^ 32

/-- Subtraction of two `unsigned long` values, as C computes it. -/
def usub (a b : Nat) : Nat := (a + ULONG_MOD - b) % ULONG_MOD

/-! ## External calls, events, state -/

/-- The three pins handed to `HAL_GPIO_DeInit`, each standing for its
`*_GPIO_Port, *_Pin` pair of macros. -/
inductive Pin where
  | LED
  | KEY1
  | KEY2
  deriving DecidableEq, Repr

/-- The external calls made by the entry points, with their arguments.
A buffer argument is the pointer value. -/
inductive Call where
  | disable_irq
  | SystemInit
  | HAL_Init
  | SystemClock_Config
  | MX_GPIO_Init
  | MX_QUADSPI_Init
  | w25qxx_read_deviceid
  | w25qxx_memory_mapped
  | w25qxx_erase_chip
  | w25qxx_erase_sector (addr : Nat)
  | w25qxx_page_program (buf : Nat) (addr : Nat) (size : Nat)
  | LED_ON
  | LED_OFF
  | HAL_QSPI_DeInit
  | HAL_GPIO_DeInit (pin : Pin)
  | HAL_RCC_DeInit
  | HAL_DeInit
  deriving DecidableEq, Repr

/-- What the trace records: a store to `devAdr`, a store to byte `i` of the
handle `hqspi`, or an external call together with the value it returned
(for a `void` function the value is not used by the caller). -/
inductive Event where
  | store_devAdr (v : Nat)
  | store_hqspi (i : Nat) (v : Nat)
  | call (c : Call) (ret : Int)
  deriving DecidableEq, Repr

/-- The world outside `FlashPrg.c`: the bytes of the global handle `hqspi`
(its length is `sizeof(hqspi)`) and the rest of the machine. -/
structure World (σ : Type) where
  hqspi : List Nat
  hw : σ

/-- The environment, standing for the code and headers that `FlashPrg.c` uses
but does not define: the status value `HAL_OK`, the behaviour of every
external call (value returned, world afterwards), and the read-mapped mode of
the device, a flag owned by the driver and observed on the world. -/
structure Env (σ : Type) where
  HAL_OK : Int
  exec : Call → World σ → Int × World σ
  mapped : World σ → Bool

/-- Program state: the static `devAdr`, the external world, the trace. -/
structure State (σ : Type) where
  devAdr : Nat
  world : World σ
  trace : List Event

variable {σ : Type}

/-- One external call: run it in the environment, log it with its result. -/
def call (E : Env σ) (c : Call) (s : State σ) : Int × State σ :=
  let r := E.exec c s.world
  (r.1, { s with world := r.2, trace := s.trace ++ [Event.call c r.1] })

/-- The statement `devAdr = adr;`. -/
def store_devAdr (adr : Nat) (s : State σ) : State σ :=
  { s with devAdr := adr, trace := s.trace ++ [Event.store_devAdr adr] }

/-- The statement `*ptr++ = 0U;` with `ptr = (unsigned char *)&hqspi + i`. -/
def store_hqspi (i : Nat) (s : State σ) : State σ :=
  { s with world := { s.world with hqspi := s.world.hqspi.set i 0 },
           trace := s.trace ++ [Event.store_hqspi i 0] }

/-- The loop `for (i = 0; i < sizeof(hqspi); i++) *ptr++ = 0U;`, entered
with the given value of `i`. -/
def zeroLoop (i : Nat) (s : State σ) : State σ :=
  if i < s.world.hqspi.length then zeroLoop (i + 1) (store_hqspi i s) else s
termination_by s.world.hqspi.length - i
decreasing_by
  simp only [store_hqspi, List.length_set]
  omega

/-! ## The entry points -/

/-- The function `Init`. -/
def Init (E : Env σ) (adr clk fnc : Nat) (s : State σ) : Int × State σ :=
  let s := store_devAdr adr s
  let s := zeroLoop 0 s
  let s := (call E Call.disable_irq s).2
  let s := (call E Call.SystemInit s).2
  let s := (call E Call.HAL_Init s).2
  let s := (call E Call.SystemClock_Config s).2
  let s := (call E Call.MX_GPIO_Init s).2
  let s := (call E Call.MX_QUADSPI_Init s).2
  let r := call E Call.w25qxx_read_deviceid s
  if r.1 ≠ DEVICE_ID then (1, r.2)
  else
    let r := call E Call.w25qxx_memory_mapped r.2
    if r.1 ≠ 0 then (1, r.2)
    else
      let s := (call E Call.LED_ON r.2).2
      (0, s)

/-- The function `UnInit`. -/
def UnInit (E : Env σ) (fnc : Nat) (s : State σ) : Int × State σ :=
  let s := (call E Call.LED_OFF s).2
  let r := call E Call.HAL_QSPI_DeInit s
  if E.HAL_OK ≠ r.1 then (1, r.2)
  else
    let s := (call E (Call.HAL_GPIO_DeInit Pin.LED) r.2).2
    let s := (call E (Call.HAL_GPIO_DeInit Pin.KEY1) s).2
    let s := (call E (Call.HAL_GPIO_DeInit Pin.KEY2) s).2
    let r := call E Call.HAL_RCC_DeInit s
    if E.HAL_OK ≠ r.1 then (1, r.2)
    else
      let r := call E Call.HAL_DeInit r.2
      if E.HAL_OK ≠ r.1 then (1, r.2)
      else (0, r.2)

/-- The function `EraseChip`. -/
def EraseChip (E : Env σ) (s : State σ) : Int × State σ :=
  let r := call E Call.w25qxx_erase_chip s
  if 0 ≠ r.1 then (1, r.2)
  else
    let r := call E Call.w25qxx_memory_mapped r.2
    if 0 ≠ r.1 then (1, r.2)
    else (0, r.2)

/-- The function `EraseSector`. -/
def EraseSector (E : Env σ) (adr : Nat) (s : State σ) : Int × State σ :=
  if adr < s.devAdr then (1, s)
  else
    let r := call E (Call.w25qxx_erase_sector (usub adr s.devAdr)) s
    if 0 ≠ r.1 then (1, r.2)
    else
      let r := call E Call.w25qxx_memory_mapped r.2
      if 0 ≠ r.1 then (1, r.2)
      else (0, r.2)

/-- The function `ProgramPage`. -/
def ProgramPage (E : Env σ) (adr sz buf : Nat) (s : State σ) : Int × State σ :=
  if adr < s.devAdr then (1, s)
  else
    let r := call E (Call.w25qxx_page_program buf (usub adr s.devAdr) sz) s
    if 0 ≠ r.1 then (1, r.2)
    else (0, r.2)

/-! ## Observations used by the theorems -/

/-- The events appended to the trace between state `s` and a later state `t`. -/
def newEvents (s t : State σ) : List Event := t.trace.drop s.trace.length

/-- The two erase commands of the driver. -/
def Call.isErase : Call → Bool
  | Call.w25qxx_erase_chip => true
  | Call.w25qxx_erase_sector _ => true
  | _ => false

/-- The page-program command of the driver. -/
def Call.isProgram : Call → Bool
  | Call.w25qxx_page_program _ _ _ => true
  | _ => false

/-- The enable-memory-mapped command of the driver. -/
def Call.isMap : Call → Bool
  | Call.w25qxx_memory_mapped => true
  | _ => false

/-- The six bring-up calls `Init` makes before it talks to the flash. -/
def Call.isBringUp : Call → Bool
  | Call.disable_irq => true
  | Call.SystemInit => true
  | Call.HAL_Init => true
  | Call.SystemClock_Config => true
  | Call.MX_GPIO_Init => true
  | Call.MX_QUADSPI_Init => true
  | _ => false

/-- The events of the first part of `Init`, after the store to `devAdr`:
the zero-fill of `hqspi` and the bring-up calls. -/
def Event.isSetup : Event → Bool
  | Event.store_hqspi _ _ => true
  | Event.call c _ => c.isBringUp
  | Event.store_devAdr _ => false

/-- The three teardown calls whose status `UnInit` checks. -/
def Call.isTeardown : Call → Bool
  | Call.HAL_QSPI_DeInit => true
  | Call.HAL_RCC_DeInit => true
  | Call.HAL_DeInit => true
  | _ => false

/-- The external call of an event, when it is one. -/
def Event.callOf : Event → Option Call
  | Event.call c _ => some c
  | _ => none

/-- The world after the environment has run the calls `cs` in order from `w`. -/
def worldAfter (E : Env σ) : List Call → World σ → World σ
  | [], w => w
  | c :: cs, w => worldAfter E cs (E.exec c w).2

/-- The value the environment returns to the call `c` when it is made after
the calls `cs`, run in order from `w`. -/
def answer (E : Env σ) (cs : List Call) (c : Call) (w : World σ) : Int :=
  (E.exec c (worldAfter E cs w)).1

/-- The events of the calls `cs` made in order from `w`, each with the value
the environment returns to it. -/
def eventsOf (E : Env σ) : List Call → World σ → List Event
  | [], _ => []
  | c :: cs, w => Event.call c (E.exec c w).1 :: eventsOf E cs (E.exec c w).2

/-- The mutating operations a host may issue between `Init` and `UnInit`. -/
inductive Op where
  | EraseSector (adr : Nat)
  | EraseChip
  | ProgramPage (adr sz buf : Nat)
  deriving DecidableEq, Repr

/-- Run one host operation. -/
def Op.exec (E : Env σ) : Op → State σ → Int × State σ
  | Op.EraseSector adr, s => FlashPrg.EraseSector E adr s
  | Op.EraseChip, s => FlashPrg.EraseChip E s
  | Op.ProgramPage adr sz buf, s => FlashPrg.ProgramPage E adr sz buf s

/-- Run a sequence of host operations, whatever their results. -/
def run (E : Env σ) : List Op → State σ → State σ
  | [], s => s
  | op :: ops, s => run E ops (op.exec E s).2

/-- An operation carries a host address below the base address `b`. -/
def Op.belowBase (b : Nat) : Op → Prop
  | Op.EraseSector adr => adr < b
  | Op.EraseChip => False
  | Op.ProgramPage adr _ _ => adr < b

/-- A sample environment: the identity read returns `id`, the memory-mapped
command returns `mm`, both erase commands return `er`, page program returns
`pg`, every HAL teardown call returns `td`, the rest return `0`.  Its
hardware state is the read-mapped flag: set by a successful memory-mapped
command, cleared by erase and program commands. -/
def simEnv (id mm er pg td : Int) : Env Bool where
  HAL_OK := 0
  exec := fun c w =>
    match c with
    | Call.w25qxx_read_deviceid => (id, w)
    | Call.w25qxx_memory_mapped => (mm, { w with hw := decide (mm = 0) || w.hw })
    | Call.w25qxx_erase_chip => (er, { w with hw := false })
    | Call.w25qxx_erase_sector _ => (er, { w with hw := false })
    | Call.w25qxx_page_program _ _ _ => (pg, { w with hw := false })
    | Call.HAL_QSPI_DeInit => (td, w)
    | Call.HAL_RCC_DeInit => (td, w)
    | Call.HAL_DeInit => (td, w)
    | _ => (0, w)
  mapped := fun w => w.hw

/-- A sample start state: a three-byte handle holding residue, empty trace. -/
def simStart : State Bool :=
  { devAdr := 0, world := { hqspi := [7, 7, 7], hw := false }, trace := [] }

/-- The sample environment with the expected device and every command
succeeding. -/
def simOk : Env Bool := simEnv 0xEF16 0 0 0 0

/-- The sample environment with a foreign device (identity read returns 0). -/
def simBad : Env Bool := simEnv 0 0 0 0 0

/-- The sample environment in which erase succeeds and the memory-mapped
command fails. -/
def simMapFails : Env Bool := simEnv 0xEF16 1 0 0 0

/-- A sample state with base address `0x90000000` and read-mapped mode on. -/
def simReady : State Bool :=
  { devAdr := 0x90000000, world := { hqspi := [0, 0, 0], hw := true }, trace := [] }

/-! ## Basic facts -/

theorem newEvents_of_append (s t : State σ) (l : List Event)
    (h : t.trace = s.trace ++ l) : newEvents s t = l := by
  simp [newEvents, h]

@[simp] theorem newEvents_mk (s : State σ) (d : Nat) (w : World σ) (l : List Event) :
    newEvents s { devAdr := d, world := w, trace := s.trace ++ l } = l := by
  simp [newEvents]

@[simp] theorem newEvents_self (s : State σ) : newEvents s s = [] := by
  simp [newEvents]

theorem usub_of_le (a b : Nat) (hle : b ≤ a) (hlt : a < ULONG_MOD) :
    usub a b = a - b := by
  unfold usub
  have h1 : a + ULONG_MOD - b = (a - b) + ULONG_MOD := by omega
  rw [h1, Nat.add_mod_right]
  exact Nat.mod_eq_of_lt (by omega)

/-! ## The zero-fill loop of `Init` -/

theorem zeroLoop_spec (i : Nat) (s : State σ) :
    (zeroLoop i s).devAdr = s.devAdr ∧
    (zeroLoop i s).world.hw = s.world.hw ∧
    (zeroLoop i s).world.hqspi.length = s.world.hqspi.length ∧
    (∀ j, j < i → (zeroLoop i s).world.hqspi[j]? = s.world.hqspi[j]?) ∧
    (∀ j, i ≤ j → j < s.world.hqspi.length → (zeroLoop i s).world.hqspi[j]? = some 0) ∧
    ∃ l, (zeroLoop i s).trace = s.trace ++ l ∧ ∀ e ∈ l, e.isSetup = true := by
  induction i, s using zeroLoop.induct with
  | case1 i s hlt ih =>
    rw [zeroLoop, if_pos hlt]
    obtain ⟨h1, h2, h3, h4, h5, l, h6, h7⟩ := ih
    simp only [store_hqspi, List.length_set] at h1 h2 h3 h4 h5 h6 ⊢
    refine ⟨h1, h2, h3, ?_, ?_, ?_⟩
    · intro j hj
      rw [h4 j (by omega), List.getElem?_set_ne (by omega)]
    · intro j hij hj
      rcases Nat.eq_or_lt_of_le hij with rfl | hlt2
      · rw [h4 i (by omega)]
        simp [hlt]
      · exact h5 j hlt2 hj
    · refine ⟨Event.store_hqspi i 0 :: l, ?_, ?_⟩
      · simp [h6]
      · intro e he
        rcases List.mem_cons.mp he with rfl | he
        · rfl
        · exact h7 e he
  | case2 i s hge =>
    rw [zeroLoop, if_neg hge]
    refine ⟨rfl, rfl, rfl, fun _ _ => rfl, ?_, [], by simp, by simp⟩
    intro j hij hj
    omega

/-- The loop, entered at `i = 0`, overwrites every byte of `hqspi` with zero. -/
theorem zeroLoop_zero_hqspi (s : State σ) :
    (zeroLoop 0 s).world.hqspi = List.replicate s.world.hqspi.length 0 := by
  obtain ⟨-, -, h3, -, h5, -⟩ := zeroLoop_spec 0 s
  apply List.ext_getElem?
  intro j
  by_cases hj : j < s.world.hqspi.length
  · rw [h5 j (Nat.zero_le _) hj, List.getElem?_replicate, if_pos hj]
  · rw [List.getElem?_eq_none (by omega), List.getElem?_eq_none (by simp; omega)]

/-! ## Shape of a run of `Init` -/

/-- Every run of `Init` stores `adr`, then performs setup events only (zero
fill and bring-up calls), then reads the device identity in some world `w`;
what follows depends on the value read and on the memory-mapped command. -/
theorem Init_shape (E : Env σ) (adr clk fnc : Nat) (s : State σ) :
    ∃ (l : List Event) (w : World σ), (∀ e ∈ l, e.isSetup = true) ∧
      Init E adr clk fnc s =
        if (E.exec Call.w25qxx_read_deviceid w).1 ≠ DEVICE_ID then
          (1, { devAdr := adr
                world := (E.exec Call.w25qxx_read_deviceid w).2
                trace := s.trace ++ (Event.store_devAdr adr :: l ++
                  [Event.call Call.w25qxx_read_deviceid
                    (E.exec Call.w25qxx_read_deviceid w).1]) })
        else if (E.exec Call.w25qxx_memory_mapped
            (E.exec Call.w25qxx_read_deviceid w).2).1 ≠ 0 then
          (1, { devAdr := adr
                world := (E.exec Call.w25qxx_memory_mapped
                  (E.exec Call.w25qxx_read_deviceid w).2).2
                trace := s.trace ++ (Event.store_devAdr adr :: l ++
                  [Event.call Call.w25qxx_read_deviceid
                    (E.exec Call.w25qxx_read_deviceid w).1,
                   Event.call Call.w25qxx_memory_mapped
                    (E.exec Call.w25qxx_memory_mapped
                      (E.exec Call.w25qxx_read_deviceid w).2).1]) })
        else
          (0, { devAdr := adr
                world := (E.exec Call.LED_ON (E.exec Call.w25qxx_memory_mapped
                  (E.exec Call.w25qxx_read_deviceid w).2).2).2
                trace := s.trace ++ (Event.store_devAdr adr :: l ++
                  [Event.call Call.w25qxx_read_deviceid
                    (E.exec Call.w25qxx_read_deviceid w).1,
                   Event.call Call.w25qxx_memory_mapped
                    (E.exec Call.w25qxx_memory_mapped
                      (E.exec Call.w25qxx_read_deviceid w).2).1,
                   Event.call Call.LED_ON
                    (E.exec Call.LED_ON (E.exec Call.w25qxx_memory_mapped
                      (E.exec Call.w25qxx_read_deviceid w).2).2).1]) }) := by
  obtain ⟨h1, -, -, -, -, l0, h6, h7⟩ := zeroLoop_spec 0 (store_devAdr adr s)
  have h1 : (zeroLoop 0 (store_devAdr adr s)).devAdr = adr := h1
  have h6 : (zeroLoop 0 (store_devAdr adr s)).trace =
      s.trace ++ [Event.store_devAdr adr] ++ l0 := h6
  let w1 := (E.exec Call.disable_irq (zeroLoop 0 (store_devAdr adr s)).world)
  let w2 := (E.exec Call.SystemInit w1.2)
  let w3 := (E.exec Call.HAL_Init w2.2)
  let w4 := (E.exec Call.SystemClock_Config w3.2)
  let w5 := (E.exec Call.MX_GPIO_Init w4.2)
  let w6 := (E.exec Call.MX_QUADSPI_Init w5.2)
  refine ⟨l0 ++ [Event.call Call.disable_irq w1.1, Event.call Call.SystemInit w2.1,
    Event.call Call.HAL_Init w3.1, Event.call Call.SystemClock_Config w4.1,
    Event.call Call.MX_GPIO_Init w5.1, Event.call Call.MX_QUADSPI_Init w6.1], w6.2, ?_, ?_⟩
  · intro e he
    rcases List.mem_append.mp he with he | he
    · exact h7 e he
    · simp only [List.mem_cons, List.mem_singleton, List.not_mem_nil, or_false] at he
      rcases he with rfl | rfl | rfl | rfl | rfl | rfl <;> rfl
  · simp only [Init, call, h1, h6, w1, w2, w3, w4, w5, w6]
    split_ifs <;> simp

theorem Init_devAdr (E : Env σ) (adr clk fnc : Nat) (s : State σ) :
    (Init E adr clk fnc s).2.devAdr = adr := by
  obtain ⟨l, w, -, h⟩ := Init_shape E adr clk fnc s
  rw [h]
  split_ifs <;> rfl

/-! ## The base address is only written by `Init` -/

theorem EraseChip_devAdr (E : Env σ) (s : State σ) :
    (EraseChip E s).2.devAdr = s.devAdr := by
  simp only [EraseChip, call]
  split_ifs <;> rfl

theorem EraseSector_devAdr (E : Env σ) (adr : Nat) (s : State σ) :
    (EraseSector E adr s).2.devAdr = s.devAdr := by
  simp only [EraseSector, call]
  split_ifs <;> rfl

theorem ProgramPage_devAdr (E : Env σ) (adr sz buf : Nat) (s : State σ) :
    (ProgramPage E adr sz buf s).2.devAdr = s.devAdr := by
  simp only [ProgramPage, call]
  split_ifs <;> rfl

theorem Op_exec_devAdr (E : Env σ) (op : Op) (s : State σ) :
    (op.exec E s).2.devAdr = s.devAdr := by
  cases op with
  | EraseSector adr => exact EraseSector_devAdr E adr s
  | EraseChip => exact EraseChip_devAdr E s
  | ProgramPage adr sz buf => exact ProgramPage_devAdr E adr sz buf s

theorem run_devAdr (E : Env σ) (ops : List Op) (s : State σ) :
    (run E ops s).devAdr = s.devAdr := by
  induction ops generalizing s with
  | nil => rfl
  | cons op ops ih => rw [run, ih, Op_exec_devAdr]

theorem UnInit_devAdr (E : Env σ) (fnc : Nat) (s : State σ) :
    (UnInit E fnc s).2.devAdr = s.devAdr := by
  simp only [UnInit, call]
  split_ifs <;> rfl

/-! ## Requests below the base address -/

theorem EraseSector_below (E : Env σ) (adr : Nat) (s : State σ)
    (h : adr < s.devAdr) : EraseSector E adr s = (1, s) := by
  simp [EraseSector, h]

theorem ProgramPage_below (E : Env σ) (adr sz buf : Nat) (s : State σ)
    (h : adr < s.devAdr) : ProgramPage E adr sz buf s = (1, s) := by
  simp [ProgramPage, h]

/-! ## Requests at or above the base address -/

theorem EraseSector_above (E : Env σ) (adr : Nat) (s : State σ)
    (hge : s.devAdr ≤ adr) (hlt : adr < ULONG_MOD) :
    EraseSector E adr s =
      if (E.exec (Call.w25qxx_erase_sector (adr - s.devAdr)) s.world).1 ≠ 0 then
        (1, { devAdr := s.devAdr
              world := (E.exec (Call.w25qxx_erase_sector (adr - s.devAdr)) s.world).2
              trace := s.trace ++ [Event.call (Call.w25qxx_erase_sector (adr - s.devAdr))
                (E.exec (Call.w25qxx_erase_sector (adr - s.devAdr)) s.world).1] })
      else if (E.exec Call.w25qxx_memory_mapped
          (E.exec (Call.w25qxx_erase_sector (adr - s.devAdr)) s.world).2).1 ≠ 0 then
        (1, { devAdr := s.devAdr
              world := (E.exec Call.w25qxx_memory_mapped
                (E.exec (Call.w25qxx_erase_sector (adr - s.devAdr)) s.world).2).2
              trace := s.trace ++ [Event.call (Call.w25qxx_erase_sector (adr - s.devAdr))
                (E.exec (Call.w25qxx_erase_sector (adr - s.devAdr)) s.world).1,
                Event.call Call.w25qxx_memory_mapped (E.exec Call.w25qxx_memory_mapped
                  (E.exec (Call.w25qxx_erase_sector (adr - s.devAdr)) s.world).2).1] })
      else
        (0, { devAdr := s.devAdr
              world := (E.exec Call.w25qxx_memory_mapped
                (E.exec (Call.w25qxx_erase_sector (adr - s.devAdr)) s.world).2).2
              trace := s.trace ++ [Event.call (Call.w25qxx_erase_sector (adr - s.devAdr))
                (E.exec (Call.w25qxx_erase_sector (adr - s.devAdr)) s.world).1,
                Event.call Call.w25qxx_memory_mapped (E.exec Call.w25qxx_memory_mapped
                  (E.exec (Call.w25qxx_erase_sector (adr - s.devAdr)) s.world).2).1] }) := by
  have hn : ¬ adr < s.devAdr := by omega
  simp only [EraseSector, call, if_neg hn, usub_of_le adr s.devAdr hge hlt]
  split_ifs <;> simp_all

theorem EraseChip_eq (E : Env σ) (s : State σ) :
    EraseChip E s =
      if (E.exec Call.w25qxx_erase_chip s.world).1 ≠ 0 then
        (1, { devAdr := s.devAdr
              world := (E.exec Call.w25qxx_erase_chip s.world).2
              trace := s.trace ++ [Event.call Call.w25qxx_erase_chip
                (E.exec Call.w25qxx_erase_chip s.world).1] })
      else if (E.exec Call.w25qxx_memory_mapped
          (E.exec Call.w25qxx_erase_chip s.world).2).1 ≠ 0 then
        (1, { devAdr := s.devAdr
              world := (E.exec Call.w25qxx_memory_mapped
                (E.exec Call.w25qxx_erase_chip s.world).2).2
              trace := s.trace ++ [Event.call Call.w25qxx_erase_chip
                (E.exec Call.w25qxx_erase_chip s.world).1,
                Event.call Call.w25qxx_memory_mapped (E.exec Call.w25qxx_memory_mapped
                  (E.exec Call.w25qxx_erase_chip s.world).2).1] })
      else
        (0, { devAdr := s.devAdr
              world := (E.exec Call.w25qxx_memory_mapped
                (E.exec Call.w25qxx_erase_chip s.world).2).2
              trace := s.trace ++ [Event.call Call.w25qxx_erase_chip
                (E.exec Call.w25qxx_erase_chip s.world).1,
                Event.call Call.w25qxx_memory_mapped (E.exec Call.w25qxx_memory_mapped
                  (E.exec Call.w25qxx_erase_chip s.world).2).1] }) := by
  simp only [EraseChip, call]
  split_ifs <;> simp_all

theorem ProgramPage_above (E : Env σ) (adr sz buf : Nat) (s : State σ)
    (hge : s.devAdr ≤ adr) (hlt : adr < ULONG_MOD) :
    ProgramPage E adr sz buf s =
      (if (E.exec (Call.w25qxx_page_program buf (adr - s.devAdr) sz) s.world).1 ≠ 0
        then 1 else 0,
       { devAdr := s.devAdr
         world := (E.exec (Call.w25qxx_page_program buf (adr - s.devAdr) sz) s.world).2
         trace := s.trace ++ [Event.call (Call.w25qxx_page_program buf (adr - s.devAdr) sz)
           (E.exec (Call.w25qxx_page_program buf (adr - s.devAdr) sz) s.world).1] }) := by
  have hn : ¬ adr < s.devAdr := by omega
  simp only [ProgramPage, call, if_neg hn, usub_of_le adr s.devAdr hge hlt]
  split_ifs <;> simp_all

theorem UnInit_eq (E : Env σ) (fnc : Nat) (s : State σ) :
    ∃ (w0 w1 w2 : World σ) (v0 g1 g2 g3 : Int),
      UnInit E fnc s =
        if (E.exec Call.HAL_QSPI_DeInit w0).1 ≠ E.HAL_OK then
          (1, { devAdr := s.devAdr
                world := (E.exec Call.HAL_QSPI_DeInit w0).2
                trace := s.trace ++ [Event.call Call.LED_OFF v0,
                  Event.call Call.HAL_QSPI_DeInit (E.exec Call.HAL_QSPI_DeInit w0).1] })
        else if (E.exec Call.HAL_RCC_DeInit w1).1 ≠ E.HAL_OK then
          (1, { devAdr := s.devAdr
                world := (E.exec Call.HAL_RCC_DeInit w1).2
                trace := s.trace ++ [Event.call Call.LED_OFF v0,
                  Event.call Call.HAL_QSPI_DeInit (E.exec Call.HAL_QSPI_DeInit w0).1,
                  Event.call (Call.HAL_GPIO_DeInit Pin.LED) g1,
                  Event.call (Call.HAL_GPIO_DeInit Pin.KEY1) g2,
                  Event.call (Call.HAL_GPIO_DeInit Pin.KEY2) g3,
                  Event.call Call.HAL_RCC_DeInit (E.exec Call.HAL_RCC_DeInit w1).1] })
        else
          (if (E.exec Call.HAL_DeInit w2).1 ≠ E.HAL_OK then 1 else 0,
            { devAdr := s.devAdr
              world := (E.exec Call.HAL_DeInit w2).2
              trace := s.trace ++ [Event.call Call.LED_OFF v0,
                Event.call Call.HAL_QSPI_DeInit (E.exec Call.HAL_QSPI_DeInit w0).1,
                Event.call (Call.HAL_GPIO_DeInit Pin.LED) g1,
                Event.call (Call.HAL_GPIO_DeInit Pin.KEY1) g2,
                Event.call (Call.HAL_GPIO_DeInit Pin.KEY2) g3,
                Event.call Call.HAL_RCC_DeInit (E.exec Call.HAL_RCC_DeInit w1).1,
                Event.call Call.HAL_DeInit (E.exec Call.HAL_DeInit w2).1] }) := by
  let x0 := E.exec Call.LED_OFF s.world
  let x1 := E.exec Call.HAL_QSPI_DeInit x0.2
  let x2 := E.exec (Call.HAL_GPIO_DeInit Pin.LED) x1.2
  let x3 := E.exec (Call.HAL_GPIO_DeInit Pin.KEY1) x2.2
  let x4 := E.exec (Call.HAL_GPIO_DeInit Pin.KEY2) x3.2
  let x5 := E.exec Call.HAL_RCC_DeInit x4.2
  refine ⟨x0.2, x4.2, x5.2, x0.1, x2.1, x3.1, x4.1, ?_⟩
  simp only [UnInit, call, x0, x1, x2, x3, x4, x5]
  split_ifs <;> simp_all

/-- Whatever the address width, a request at or above the base address issues
its driver command first. -/
theorem EraseSector_issues (E : Env σ) (adr : Nat) (s : State σ) (h : ¬ adr < s.devAdr) :
    ∃ r rest, newEvents s (EraseSector E adr s).2 =
      Event.call (Call.w25qxx_erase_sector (usub adr s.devAdr)) r :: rest := by
  simp only [EraseSector, call, if_neg h]
  split_ifs <;> simp [newEvents]

theorem ProgramPage_issues (E : Env σ) (adr sz buf : Nat) (s : State σ)
    (h : ¬ adr < s.devAdr) :
    ∃ r, newEvents s (ProgramPage E adr sz buf s).2 =
      [Event.call (Call.w25qxx_page_program buf (usub adr s.devAdr) sz) r] := by
  simp only [ProgramPage, call, if_neg h]
  split_ifs <;> simp [newEvents]

theorem EraseChip_issues (E : Env σ) (s : State σ) :
    ∃ r rest, newEvents s (EraseChip E s).2 =
      Event.call Call.w25qxx_erase_chip r :: rest := by
  simp only [EraseChip, call]
  split_ifs <;> simp [newEvents]

theorem setup_call_isBringUp (l : List Event) (hl : ∀ e ∈ l, e.isSetup = true)
    (c : Call) (v : Int) (h : Event.call c v ∈ l) : c.isBringUp = true :=
  hl _ h

theorem setup_no_store_devAdr (l : List Event) (hl : ∀ e ∈ l, e.isSetup = true)
    (v : Nat) : Event.store_devAdr v ∉ l := by
  intro h
  have := hl _ h
  simp [Event.isSetup] at this

/-- No run of `Init`, whatever its outcome, issues an erase or program
command. -/
theorem Init_no_erase_program (E : Env σ) (s : State σ) (adr clk fnc : Nat)
    (c : Call) (r : Int) (hc : Event.call c r ∈ newEvents s (Init E adr clk fnc s).2) :
    c.isErase = false ∧ c.isProgram = false := by
  obtain ⟨l, w, hl, h⟩ := Init_shape E adr clk fnc s
  rw [h] at hc
  have hset : Event.call c r ∈ l → c.isErase = false ∧ c.isProgram = false := fun hm => by
    have := setup_call_isBringUp l hl _ _ hm
    cases c <;> simp_all [Call.isBringUp, Call.isErase, Call.isProgram]
  split_ifs at hc <;> simp at hc
  · rcases hc with hc | hc
    · exact hset hc
    · rw [hc.1]; exact ⟨rfl, rfl⟩
  · rcases hc with hc | hc | hc
    · exact hset hc
    · rw [hc.1]; exact ⟨rfl, rfl⟩
    · rw [hc.1]; exact ⟨rfl, rfl⟩
  · rcases hc with hc | hc | hc | hc
    · exact hset hc
    · rw [hc.1]; exact ⟨rfl, rfl⟩
    · rw [hc.1]; exact ⟨rfl, rfl⟩
    · rw [hc.1]; exact ⟨rfl, rfl⟩

/-! ## The claims -/

/-- C1: with the base address `b` stored by `Init` (and any erase/program
calls made since), a request `adr < b` makes `EraseSector` and `ProgramPage`
return 1 and leave the whole state as it was: the driver world is unchanged
and no event, hence no driver command, is added to the trace. -/
theorem below_base_no_driver_call (E : Env σ) (s0 : State σ) (b clk fnc : Nat)
    (ops : List Op) (adr sz buf : Nat) (h : adr < b) :
    EraseSector E adr (run E ops (Init E b clk fnc s0).2)
      = (1, run E ops (Init E b clk fnc s0).2) ∧
    ProgramPage E adr sz buf (run E ops (Init E b clk fnc s0).2)
      = (1, run E ops (Init E b clk fnc s0).2) ∧
    newEvents (run E ops (Init E b clk fnc s0).2)
      (EraseSector E adr (run E ops (Init E b clk fnc s0).2)).2 = [] ∧
    newEvents (run E ops (Init E b clk fnc s0).2)
      (ProgramPage E adr sz buf (run E ops (Init E b clk fnc s0).2)).2 = [] := by
  have hb : (run E ops (Init E b clk fnc s0).2).devAdr = b := by
    rw [run_devAdr, Init_devAdr]
  have h1 := EraseSector_below E adr (run E ops (Init E b clk fnc s0).2) (by omega)
  have h2 := ProgramPage_below E adr sz buf (run E ops (Init E b clk fnc s0).2) (by omega)
  refine ⟨h1, h2, ?_, ?_⟩
  · rw [h1]; exact newEvents_self _
  · rw [h2]; exact newEvents_self _

/-- C2: after a successful `Init` with base `b` and any sequence of
`EraseSector`, `EraseChip`, `ProgramPage` calls, `devAdr` is still `b`, and
for `adr ≥ b` the first thing `EraseSector adr` does is the sector-erase
command at offset `adr - b`, where `(adr - b) + b = adr`; it issues no other
erase command. -/
theorem base_address_stable (E : Env σ) (s0 : State σ) (b clk fnc : Nat)
    (ops : List Op) (adr : Nat)
    (hInit : (Init E b clk fnc s0).1 = 0) (hge : b ≤ adr) (hlt : adr < ULONG_MOD) :
    (run E ops (Init E b clk fnc s0).2).devAdr = b ∧
    (adr - b) + b = adr ∧
    ∃ r rest,
      newEvents (run E ops (Init E b clk fnc s0).2)
        (EraseSector E adr (run E ops (Init E b clk fnc s0).2)).2
        = Event.call (Call.w25qxx_erase_sector (adr - b)) r :: rest ∧
      ∀ c v, Event.call c v ∈ rest → c.isErase = false := by
  have hb : (run E ops (Init E b clk fnc s0).2).devAdr = b := by
    rw [run_devAdr, Init_devAdr]
  refine ⟨hb, by omega, ?_⟩
  rw [EraseSector_above E adr _ (by omega) hlt, hb]
  split_ifs
  · exact ⟨_, _, newEvents_mk _ _ _ _, by simp⟩
  · refine ⟨_, _, newEvents_mk _ _ _ _, ?_⟩
    intro c v hc
    simp only [List.mem_singleton, Event.call.injEq] at hc
    rw [hc.1]; rfl
  · refine ⟨_, _, newEvents_mk _ _ _ _, ?_⟩
    intro c v hc
    simp only [List.mem_singleton, Event.call.injEq] at hc
    rw [hc.1]; rfl

/-- C3: for `adr` at or above the base address, `ProgramPage adr sz buf`
issues exactly one event, the page-program command with buffer `buf`, offset
`adr - devAdr` and size `sz`; it returns 0 when that command returns 0 and 1
when it returns anything else. -/
theorem ProgramPage_command (E : Env σ) (s : State σ) (adr sz buf : Nat)
    (hge : s.devAdr ≤ adr) (hlt : adr < ULONG_MOD) :
    newEvents s (ProgramPage E adr sz buf s).2 =
      [Event.call (Call.w25qxx_page_program buf (adr - s.devAdr) sz)
        (E.exec (Call.w25qxx_page_program buf (adr - s.devAdr) sz) s.world).1] ∧
    (adr - s.devAdr) + s.devAdr = adr ∧
    (ProgramPage E adr sz buf s).2.world =
      (E.exec (Call.w25qxx_page_program buf (adr - s.devAdr) sz) s.world).2 ∧
    ((E.exec (Call.w25qxx_page_program buf (adr - s.devAdr) sz) s.world).1 = 0 →
      (ProgramPage E adr sz buf s).1 = 0) ∧
    ((E.exec (Call.w25qxx_page_program buf (adr - s.devAdr) sz) s.world).1 ≠ 0 →
      (ProgramPage E adr sz buf s).1 = 1) := by
  rw [ProgramPage_above E adr sz buf s hge hlt]
  refine ⟨by simp, by omega, rfl, ?_, ?_⟩
  · intro h0; simp [h0]
  · intro h0; simp [h0]

/-- C4: `Init` always reads the device identity.  When the value read differs
from `DEVICE_ID` (0xEF16), `Init` returns 1 and that read is the last event of
the call: no memory-mapped, erase or program command is issued.  When `Init`
returns 0, the identity read returned `DEVICE_ID` and the memory-mapped
command returned 0. -/
theorem Init_identity_gate (E : Env σ) (s : State σ) (adr clk fnc : Nat) :
    (∃ v, Event.call Call.w25qxx_read_deviceid v ∈ newEvents s (Init E adr clk fnc s).2) ∧
    (∀ v, Event.call Call.w25qxx_read_deviceid v ∈ newEvents s (Init E adr clk fnc s).2 →
      v ≠ DEVICE_ID →
        (Init E adr clk fnc s).1 = 1 ∧
        (∃ pre, newEvents s (Init E adr clk fnc s).2 =
          pre ++ [Event.call Call.w25qxx_read_deviceid v]) ∧
        ∀ c r, Event.call c r ∈ newEvents s (Init E adr clk fnc s).2 →
          c.isMap = false ∧ c.isErase = false ∧ c.isProgram = false) ∧
    ((Init E adr clk fnc s).1 = 0 →
      Event.call Call.w25qxx_read_deviceid DEVICE_ID ∈ newEvents s (Init E adr clk fnc s).2 ∧
      Event.call Call.w25qxx_memory_mapped 0 ∈ newEvents s (Init E adr clk fnc s).2) := by
  obtain ⟨l, w, hl, h⟩ := Init_shape E adr clk fnc s
  have hnr : ∀ v, Event.call Call.w25qxx_read_deviceid v ∉ l := fun v hv => by
    have := setup_call_isBringUp l hl _ _ hv
    simp [Call.isBringUp] at this
  rw [h]
  split_ifs with h1 h2
  · refine ⟨⟨(E.exec Call.w25qxx_read_deviceid w).1, by simp⟩, ?_, by simp⟩
    intro v hv hne
    simp [hnr] at hv
    subst hv
    refine ⟨rfl, ⟨Event.store_devAdr adr :: l, by simp⟩, ?_⟩
    intro c r hc
    simp at hc
    rcases hc with hc | hc
    · have := setup_call_isBringUp l hl _ _ hc
      cases c <;> simp_all [Call.isBringUp, Call.isMap, Call.isErase, Call.isProgram]
    · rw [hc.1]
      exact ⟨rfl, rfl, rfl⟩
  · refine ⟨⟨(E.exec Call.w25qxx_read_deviceid w).1, by simp⟩, ?_, by simp⟩
    intro v hv hne
    simp [hnr] at hv
    subst hv
    exact absurd (not_not.mp h1) hne
  · refine ⟨⟨(E.exec Call.w25qxx_read_deviceid w).1, by simp⟩, ?_, ?_⟩
    · intro v hv hne
      simp [hnr] at hv
      subst hv
      exact absurd (not_not.mp h1) hne
    · intro _
      rw [← not_not.mp h1, ← not_not.mp h2]
      simp

/-- C7: for every outcome, `Init adr clk fnc` leaves `devAdr = adr`, and the
store to `devAdr` is the first event of the call, so it precedes every driver
and platform call; `devAdr` is stored only that once. -/
theorem Init_records_base (E : Env σ) (s : State σ) (adr clk fnc : Nat) :
    (Init E adr clk fnc s).2.devAdr = adr ∧
    ∃ rest, newEvents s (Init E adr clk fnc s).2 = Event.store_devAdr adr :: rest ∧
      ∀ v, Event.store_devAdr v ∉ rest := by
  refine ⟨Init_devAdr E adr clk fnc s, ?_⟩
  obtain ⟨l, w, hl, h⟩ := Init_shape E adr clk fnc s
  have hns := setup_no_store_devAdr l hl
  rw [h]
  split_ifs <;>
    exact ⟨_, newEvents_mk _ _ _ _, fun v hv => by
      simp [hns] at hv⟩

/-- C9: for `adr` at or above the base address, with `off = adr - devAdr`:
when the sector-erase command returns 0 and the memory-mapped command after
it fails, `EraseSector` returns 1 and its events are exactly that one
sector-erase command followed by the memory-mapped command (the erase is not
undone); when the sector-erase command itself fails, `EraseSector` returns 1
and that command is its only event.  The same holds for `EraseChip` and the
chip-erase command. -/
theorem erase_failure_no_rollback (E : Env σ) (s : State σ) (adr : Nat)
    (hge : s.devAdr ≤ adr) (hlt : adr < ULONG_MOD) :
    ((E.exec (Call.w25qxx_erase_sector (adr - s.devAdr)) s.world).1 = 0 →
      (E.exec Call.w25qxx_memory_mapped
        (E.exec (Call.w25qxx_erase_sector (adr - s.devAdr)) s.world).2).1 ≠ 0 →
      (EraseSector E adr s).1 = 1 ∧
      newEvents s (EraseSector E adr s).2 =
        [Event.call (Call.w25qxx_erase_sector (adr - s.devAdr)) 0,
         Event.call Call.w25qxx_memory_mapped (E.exec Call.w25qxx_memory_mapped
          (E.exec (Call.w25qxx_erase_sector (adr - s.devAdr)) s.world).2).1] ∧
      (EraseSector E adr s).2.world = (E.exec Call.w25qxx_memory_mapped
          (E.exec (Call.w25qxx_erase_sector (adr - s.devAdr)) s.world).2).2) ∧
    ((E.exec (Call.w25qxx_erase_sector (adr - s.devAdr)) s.world).1 ≠ 0 →
      (EraseSector E adr s).1 = 1 ∧
      newEvents s (EraseSector E adr s).2 =
        [Event.call (Call.w25qxx_erase_sector (adr - s.devAdr))
          (E.exec (Call.w25qxx_erase_sector (adr - s.devAdr)) s.world).1]) ∧
    ((E.exec Call.w25qxx_erase_chip s.world).1 = 0 →
      (E.exec Call.w25qxx_memory_mapped (E.exec Call.w25qxx_erase_chip s.world).2).1 ≠ 0 →
      (EraseChip E s).1 = 1 ∧
      newEvents s (EraseChip E s).2 =
        [Event.call Call.w25qxx_erase_chip 0,
         Event.call Call.w25qxx_memory_mapped (E.exec Call.w25qxx_memory_mapped
          (E.exec Call.w25qxx_erase_chip s.world).2).1] ∧
      (EraseChip E s).2.world = (E.exec Call.w25qxx_memory_mapped
          (E.exec Call.w25qxx_erase_chip s.world).2).2) ∧
    ((E.exec Call.w25qxx_erase_chip s.world).1 ≠ 0 →
      (EraseChip E s).1 = 1 ∧
      newEvents s (EraseChip E s).2 =
        [Event.call Call.w25qxx_erase_chip (E.exec Call.w25qxx_erase_chip s.world).1]) := by
  rw [EraseSector_above E adr s hge hlt, EraseChip_eq E s]
  refine ⟨?_, ?_, ?_, ?_⟩
  · intro h1 h2
    rw [if_neg (by simp [h1]), if_pos h2]
    simp [h1]
  · intro h1
    rw [if_pos h1]
    simp
  · intro h1 h2
    rw [if_neg (by simp [h1]), if_pos h2]
    simp [h1]
  · intro h1
    rw [if_pos h1]
    simp

/-- C6: let the read-mapped flag `E.mapped` be true after every memory-mapped
command that returns 0.  Then whenever `EraseSector` or `EraseChip` returns 0
the flag is true in the state returned; on every return from these two the
flag is true or the result is 1.  Whenever `ProgramPage` returns 0 its events
contain no memory-mapped command. -/
theorem read_mapped_after_erase (E : Env σ) (s : State σ) (adr padr sz buf : Nat)
    (hlaw : ∀ w, (E.exec Call.w25qxx_memory_mapped w).1 = 0 →
      E.mapped (E.exec Call.w25qxx_memory_mapped w).2 = true) :
    ((EraseSector E adr s).1 = 0 → E.mapped (EraseSector E adr s).2.world = true) ∧
    ((EraseChip E s).1 = 0 → E.mapped (EraseChip E s).2.world = true) ∧
    (E.mapped (EraseSector E adr s).2.world = true ∨ (EraseSector E adr s).1 = 1) ∧
    (E.mapped (EraseChip E s).2.world = true ∨ (EraseChip E s).1 = 1) ∧
    ((ProgramPage E padr sz buf s).1 = 0 →
      ∀ r, Event.call Call.w25qxx_memory_mapped r ∉
        newEvents s (ProgramPage E padr sz buf s).2) := by
  have hS : (EraseSector E adr s).1 = 0 → E.mapped (EraseSector E adr s).2.world = true := by
    simp only [EraseSector, call]
    split_ifs with h1 h2 h3
    · simp
    · simp
    · simp
    · intro _
      exact hlaw _ (not_not.mp h3).symm
  have hC : (EraseChip E s).1 = 0 → E.mapped (EraseChip E s).2.world = true := by
    simp only [EraseChip, call]
    split_ifs with h1 h2
    · simp
    · simp
    · intro _
      exact hlaw _ (not_not.mp h2).symm
  have hS01 : (EraseSector E adr s).1 = 0 ∨ (EraseSector E adr s).1 = 1 := by
    simp only [EraseSector, call]
    split_ifs <;> simp
  have hC01 : (EraseChip E s).1 = 0 ∨ (EraseChip E s).1 = 1 := by
    simp only [EraseChip, call]
    split_ifs <;> simp
  refine ⟨hS, hC, ?_, ?_, ?_⟩
  · rcases hS01 with h | h
    · exact Or.inl (hS h)
    · exact Or.inr h
  · rcases hC01 with h | h
    · exact Or.inl (hC h)
    · exact Or.inr h
  · intro _ r
    simp only [ProgramPage, call]
    split_ifs <;> simp [newEvents]

/-- C8: with the environment's answers taken in program order (LED off, QSPI
de-init, three GPIO de-inits, RCC de-init, HAL de-init): `UnInit` returns 0
exactly when the QSPI, RCC and HAL de-init all return `HAL_OK`, and 1
otherwise.  When the QSPI de-init fails, the events are exactly LED off and
that call.  When it succeeds, the three GPIO de-inits and the RCC de-init
follow; when the RCC de-init fails nothing follows it; when it succeeds the
HAL de-init follows and decides the result.  On the trace: the result is 0
exactly when all three checked calls are in it with `HAL_OK`; the QSPI de-init
is always attempted; after a failed QSPI de-init there is no GPIO, RCC or HAL
de-init call; after a failed RCC de-init there is no HAL de-init call. -/
theorem UnInit_fail_fast (E : Env σ) (fnc : Nat) (s : State σ) :
    ((UnInit E fnc s).1 = 0 ↔
      (answer E [Call.LED_OFF] Call.HAL_QSPI_DeInit s.world = E.HAL_OK ∧
       answer E [Call.LED_OFF, Call.HAL_QSPI_DeInit, Call.HAL_GPIO_DeInit Pin.LED,
        Call.HAL_GPIO_DeInit Pin.KEY1, Call.HAL_GPIO_DeInit Pin.KEY2]
        Call.HAL_RCC_DeInit s.world = E.HAL_OK ∧
       answer E [Call.LED_OFF, Call.HAL_QSPI_DeInit, Call.HAL_GPIO_DeInit Pin.LED,
        Call.HAL_GPIO_DeInit Pin.KEY1, Call.HAL_GPIO_DeInit Pin.KEY2, Call.HAL_RCC_DeInit]
        Call.HAL_DeInit s.world = E.HAL_OK)) ∧
    (answer E [Call.LED_OFF] Call.HAL_QSPI_DeInit s.world ≠ E.HAL_OK →
      (UnInit E fnc s).1 = 1 ∧
      newEvents s (UnInit E fnc s).2 = eventsOf E [Call.LED_OFF, Call.HAL_QSPI_DeInit] s.world ∧
      (UnInit E fnc s).2.world = worldAfter E [Call.LED_OFF, Call.HAL_QSPI_DeInit] s.world) ∧
    (answer E [Call.LED_OFF] Call.HAL_QSPI_DeInit s.world = E.HAL_OK →
      answer E [Call.LED_OFF, Call.HAL_QSPI_DeInit, Call.HAL_GPIO_DeInit Pin.LED,
        Call.HAL_GPIO_DeInit Pin.KEY1, Call.HAL_GPIO_DeInit Pin.KEY2]
        Call.HAL_RCC_DeInit s.world ≠ E.HAL_OK →
      (UnInit E fnc s).1 = 1 ∧
      newEvents s (UnInit E fnc s).2 = eventsOf E
        [Call.LED_OFF, Call.HAL_QSPI_DeInit, Call.HAL_GPIO_DeInit Pin.LED,
        Call.HAL_GPIO_DeInit Pin.KEY1, Call.HAL_GPIO_DeInit Pin.KEY2, Call.HAL_RCC_DeInit] s.world ∧
      (UnInit E fnc s).2.world = worldAfter E
        [Call.LED_OFF, Call.HAL_QSPI_DeInit, Call.HAL_GPIO_DeInit Pin.LED,
        Call.HAL_GPIO_DeInit Pin.KEY1, Call.HAL_GPIO_DeInit Pin.KEY2, Call.HAL_RCC_DeInit] s.world) ∧
    (answer E [Call.LED_OFF] Call.HAL_QSPI_DeInit s.world = E.HAL_OK →
      answer E [Call.LED_OFF, Call.HAL_QSPI_DeInit, Call.HAL_GPIO_DeInit Pin.LED,
        Call.HAL_GPIO_DeInit Pin.KEY1, Call.HAL_GPIO_DeInit Pin.KEY2]
        Call.HAL_RCC_DeInit s.world = E.HAL_OK →
      newEvents s (UnInit E fnc s).2 = eventsOf E
        [Call.LED_OFF, Call.HAL_QSPI_DeInit, Call.HAL_GPIO_DeInit Pin.LED,
        Call.HAL_GPIO_DeInit Pin.KEY1, Call.HAL_GPIO_DeInit Pin.KEY2, Call.HAL_RCC_DeInit,
        Call.HAL_DeInit] s.world ∧
      (UnInit E fnc s).2.world = worldAfter E
        [Call.LED_OFF, Call.HAL_QSPI_DeInit, Call.HAL_GPIO_DeInit Pin.LED,
        Call.HAL_GPIO_DeInit Pin.KEY1, Call.HAL_GPIO_DeInit Pin.KEY2, Call.HAL_RCC_DeInit,
        Call.HAL_DeInit] s.world ∧
      (answer E [Call.LED_OFF, Call.HAL_QSPI_DeInit, Call.HAL_GPIO_DeInit Pin.LED,
        Call.HAL_GPIO_DeInit Pin.KEY1, Call.HAL_GPIO_DeInit Pin.KEY2, Call.HAL_RCC_DeInit]
        Call.HAL_DeInit s.world = E.HAL_OK →
        (UnInit E fnc s).1 = 0) ∧
      (answer E [Call.LED_OFF, Call.HAL_QSPI_DeInit, Call.HAL_GPIO_DeInit Pin.LED,
        Call.HAL_GPIO_DeInit Pin.KEY1, Call.HAL_GPIO_DeInit Pin.KEY2, Call.HAL_RCC_DeInit]
        Call.HAL_DeInit s.world ≠ E.HAL_OK →
        (UnInit E fnc s).1 = 1)) ∧
    ((UnInit E fnc s).1 = 0 ↔
      (Event.call Call.HAL_QSPI_DeInit E.HAL_OK ∈ newEvents s (UnInit E fnc s).2 ∧
       Event.call Call.HAL_RCC_DeInit E.HAL_OK ∈ newEvents s (UnInit E fnc s).2 ∧
       Event.call Call.HAL_DeInit E.HAL_OK ∈ newEvents s (UnInit E fnc s).2)) ∧
    ((UnInit E fnc s).1 = 0 ∨ (UnInit E fnc s).1 = 1) ∧
    (∃ r, Event.call Call.HAL_QSPI_DeInit r ∈ newEvents s (UnInit E fnc s).2) ∧
    (∀ r, Event.call Call.HAL_QSPI_DeInit r ∈ newEvents s (UnInit E fnc s).2 →
      r ≠ E.HAL_OK →
      ∀ c v, Event.call c v ∈ newEvents s (UnInit E fnc s).2 →
        (∀ p, c ≠ Call.HAL_GPIO_DeInit p) ∧ c ≠ Call.HAL_RCC_DeInit ∧ c ≠ Call.HAL_DeInit) ∧
    (∀ r, Event.call Call.HAL_RCC_DeInit r ∈ newEvents s (UnInit E fnc s).2 →
      r ≠ E.HAL_OK →
      ∀ v, Event.call Call.HAL_DeInit v ∉ newEvents s (UnInit E fnc s).2) := by
  refine ⟨?_, ?_, ?_, ?_, ?_⟩
  · simp only [UnInit, call, answer, worldAfter]
    split_ifs with h1 h2 h3
    · simpa using fun h => absurd h.symm h1
    · simpa using fun _ h => absurd h.symm h2
    · simpa using fun _ _ h => absurd h.symm h3
    · simp [(not_not.mp h1).symm, (not_not.mp h2).symm, (not_not.mp h3).symm]
  · intro hq
    simp only [answer, worldAfter] at hq
    simp only [UnInit, call]
    rw [if_pos (Ne.symm hq)]
    simp [newEvents, eventsOf, worldAfter]
  · intro hq hr
    simp only [answer, worldAfter] at hq hr
    simp only [UnInit, call]
    rw [if_neg (by simp [hq]), if_pos (Ne.symm hr)]
    simp [newEvents, eventsOf, worldAfter]
  · intro hq hr
    simp only [answer, worldAfter] at hq hr
    simp only [UnInit, call, answer, worldAfter]
    rw [if_neg (by simp [hq]), if_neg (by simp [hr])]
    refine ⟨?_, ?_, ?_, ?_⟩
    · split_ifs <;> simp [newEvents, eventsOf]
    · split_ifs <;> rfl
    · intro hh
      rw [if_neg (by simp [hh])]
    · intro hh
      rw [if_pos (Ne.symm hh)]
  obtain ⟨w0, w1, w2, v0, g1, g2, g3, h⟩ := UnInit_eq E fnc s
  rw [h]
  split_ifs with h1 h2 h3
  · refine ⟨?_, by simp, ⟨(E.exec Call.HAL_QSPI_DeInit w0).1, by simp⟩, ?_, ?_⟩
    · simp
    · intro r hr hne c v hc
      simp at hc
      rcases hc with ⟨rfl, -⟩ | ⟨rfl, -⟩ <;> simp
    · intro r hr
      simp at hr
  · refine ⟨?_, by simp, ⟨(E.exec Call.HAL_QSPI_DeInit w0).1, by simp⟩, ?_, ?_⟩
    · simp
    · intro r hr hne
      simp at hr
      exact absurd (hr.trans (not_not.mp h1)) hne
    · intro r hr hne v
      simp
  · refine ⟨?_, by simp, ⟨(E.exec Call.HAL_QSPI_DeInit w0).1, by simp⟩, ?_, ?_⟩
    · simp
      intro _ _ h'
      exact absurd h'.symm h3
    · intro r hr hne
      simp at hr
      exact absurd (hr.trans (not_not.mp h1)) hne
    · intro r hr hne
      simp at hr
      exact absurd (hr.trans (not_not.mp h2)) hne
  · refine ⟨?_, by simp, ⟨(E.exec Call.HAL_QSPI_DeInit w0).1, by simp⟩, ?_, ?_⟩
    · simp [not_not.mp h1, not_not.mp h2, not_not.mp h3]
    · intro r hr hne
      simp at hr
      exact absurd (hr.trans (not_not.mp h1)) hne
    · intro r hr hne
      simp at hr
      exact absurd (hr.trans (not_not.mp h2)) hne

/-- C10: take any two states (for instance one left by a failed `Init` and
one left by a successful `Init`, with any base addresses) in which the checked
teardown calls made by both runs agree on success or failure.  Then both runs
of `UnInit` make the same sequence of calls and return the same value; the
value is 0 or 1, and it is 1 only if a checked teardown call of that run
returned something other than `HAL_OK`.  The base address is not consulted
and not changed. -/
theorem UnInit_independent_of_session (E : Env σ) (fnc : Nat) (s1 s2 : State σ)
    (hres : ∀ c r1 r2, c.isTeardown = true →
      Event.call c r1 ∈ newEvents s1 (UnInit E fnc s1).2 →
      Event.call c r2 ∈ newEvents s2 (UnInit E fnc s2).2 →
      (r1 = E.HAL_OK ↔ r2 = E.HAL_OK)) :
    (newEvents s1 (UnInit E fnc s1).2).filterMap Event.callOf =
      (newEvents s2 (UnInit E fnc s2).2).filterMap Event.callOf ∧
    (UnInit E fnc s1).1 = (UnInit E fnc s2).1 ∧
    ((UnInit E fnc s1).1 = 0 ∨ (UnInit E fnc s1).1 = 1) ∧
    ((UnInit E fnc s1).1 = 1 → ∃ c r, c.isTeardown = true ∧ r ≠ E.HAL_OK ∧
      Event.call c r ∈ newEvents s1 (UnInit E fnc s1).2) ∧
    (UnInit E fnc s1).2.devAdr = s1.devAdr ∧ (UnInit E fnc s2).2.devAdr = s2.devAdr := by
  obtain ⟨a0, a1, a2, av, ag1, ag2, ag3, ha⟩ := UnInit_eq E fnc s1
  obtain ⟨b0, b1, b2, bv, bg1, bg2, bg3, hb⟩ := UnInit_eq E fnc s2
  refine ⟨?_, ?_, ?_, ?_, UnInit_devAdr E fnc s1, UnInit_devAdr E fnc s2⟩
  all_goals rw [ha, hb] at hres
  all_goals rw [ha]
  all_goals try rw [hb]
  all_goals
    have hq := hres Call.HAL_QSPI_DeInit (E.exec Call.HAL_QSPI_DeInit a0).1
      (E.exec Call.HAL_QSPI_DeInit b0).1 rfl (by split_ifs <;> simp) (by split_ifs <;> simp)
    have hr : (E.exec Call.HAL_QSPI_DeInit a0).1 = E.HAL_OK →
        (E.exec Call.HAL_QSPI_DeInit b0).1 = E.HAL_OK →
        ((E.exec Call.HAL_RCC_DeInit a1).1 = E.HAL_OK ↔
          (E.exec Call.HAL_RCC_DeInit b1).1 = E.HAL_OK) := fun h1 h2 =>
      hres Call.HAL_RCC_DeInit _ _ rfl (by rw [if_neg (by simp [h1])]; split_ifs <;> simp)
        (by rw [if_neg (by simp [h2])]; split_ifs <;> simp)
    have hh : (E.exec Call.HAL_QSPI_DeInit a0).1 = E.HAL_OK →
        (E.exec Call.HAL_QSPI_DeInit b0).1 = E.HAL_OK →
        (E.exec Call.HAL_RCC_DeInit a1).1 = E.HAL_OK →
        (E.exec Call.HAL_RCC_DeInit b1).1 = E.HAL_OK →
        ((E.exec Call.HAL_DeInit a2).1 = E.HAL_OK ↔
          (E.exec Call.HAL_DeInit b2).1 = E.HAL_OK) := fun h1 h2 h3 h4 =>
      hres Call.HAL_DeInit _ _ rfl (by simp [h1, h3]) (by simp [h2, h4])
    clear hres
  · split_ifs <;> simp_all [Event.callOf]
  · split_ifs <;> simp_all
  · split_ifs <;> simp
  · split_ifs with h1 h2 h3
    · exact fun _ => ⟨Call.HAL_QSPI_DeInit, _, rfl, h1, by simp⟩
    · exact fun _ => ⟨Call.HAL_RCC_DeInit, _, rfl, h2, by simp⟩
    · exact fun _ => ⟨Call.HAL_DeInit, _, rfl, h3, by simp⟩
    · intro h0
      simp at h0

/-- C5, first as the claim has it, refuted: in the sample environment whose
identity read returns 0, `Init` returns 1 on the identity mismatch, and the
`EraseChip` call that follows still issues the chip-erase command. -/
theorem failed_Init_then_EraseChip_erases :
    (Init (simEnv 0 0 0 0 0) 0x90000000 0 1 simStart).1 = 1 ∧
    Event.call Call.w25qxx_read_deviceid 0 ∈
      newEvents simStart (Init (simEnv 0 0 0 0 0) 0x90000000 0 1 simStart).2 ∧
    (0 : Int) ≠ DEVICE_ID ∧
    ¬ (∀ c r, Event.call c r ∈
        newEvents (Init (simEnv 0 0 0 0 0) 0x90000000 0 1 simStart).2
          (EraseChip (simEnv 0 0 0 0 0)
            (Init (simEnv 0 0 0 0 0) 0x90000000 0 1 simStart).2).2 →
        c.isErase = false ∧ c.isProgram = false) :=
  ⟨by decide,
    by simp [newEvents, Init, call, store_devAdr, zeroLoop, store_hqspi, simStart, simEnv,
      DEVICE_ID],
    by decide,
    fun h => absurd (h Call.w25qxx_erase_chip 0 (by
      simp [newEvents, EraseChip, Init, call, store_devAdr, zeroLoop, store_hqspi, simStart,
        simEnv, DEVICE_ID])).1 (by decide)⟩

/-- C5, amended: an `Init` that returned 1 on an identity mismatch has itself
issued no erase or program command, but the session keeps no record of that
failure.  After any erase/program calls, the next operation issues no erase
or program command exactly when it carries an address below the base address
stored by that `Init`; `EraseChip`, and `EraseSector`/`ProgramPage` at or above
the base, issue their command. -/
theorem failed_Init_does_not_gate (E : Env σ) (s0 : State σ) (b clk fnc : Nat)
    (ops : List Op) (op : Op)
    (hfail : (Init E b clk fnc s0).1 = 1)
    (hid : ∃ v, Event.call Call.w25qxx_read_deviceid v ∈
      newEvents s0 (Init E b clk fnc s0).2 ∧ v ≠ DEVICE_ID) :
    (∀ c r, Event.call c r ∈ newEvents s0 (Init E b clk fnc s0).2 →
      c.isErase = false ∧ c.isProgram = false) ∧
    ((∀ c r, Event.call c r ∈ newEvents (run E ops (Init E b clk fnc s0).2)
        (op.exec E (run E ops (Init E b clk fnc s0).2)).2 →
      c.isErase = false ∧ c.isProgram = false) ↔ op.belowBase b) := by
  obtain ⟨v, hv, hne⟩ := hid
  have hb : (run E ops (Init E b clk fnc s0).2).devAdr = b := by
    rw [run_devAdr, Init_devAdr]
  refine ⟨fun c r hc => Init_no_erase_program E s0 b clk fnc c r hc, ?_⟩
  generalize run E ops (Init E b clk fnc s0).2 = s at hb
  cases op with
  | EraseSector adr =>
    simp only [Op.exec, Op.belowBase]
    by_cases h : adr < s.devAdr
    · rw [EraseSector_below E adr s h]
      simp [← hb, h]
    · obtain ⟨r, rest, hr⟩ := EraseSector_issues E adr s h
      rw [hr, ← hb]
      constructor
      · intro hall
        have := (hall _ r (List.mem_cons_self _ _)).1
        simp [Call.isErase] at this
      · intro h'
        exact absurd h' h
  | EraseChip =>
    simp only [Op.exec, Op.belowBase]
    obtain ⟨r, rest, hr⟩ := EraseChip_issues E s
    rw [hr]
    constructor
    · intro hall
      have := (hall _ r (List.mem_cons_self _ _)).1
      simp [Call.isErase] at this
    · intro h'
      exact absurd h' id
  | ProgramPage adr sz buf =>
    simp only [Op.exec, Op.belowBase]
    by_cases h : adr < s.devAdr
    · rw [ProgramPage_below E adr sz buf s h]
      simp [← hb, h]
    · obtain ⟨r, hr⟩ := ProgramPage_issues E adr sz buf s h
      rw [hr, ← hb]
      constructor
      · intro hall
        have := (hall _ r (List.mem_cons_self _ _)).2
        simp [Call.isProgram] at this
      · intro h'
        exact absurd h' h

/-! ## Instances of the theorems above on the sample environment -/

/-- Instance of C1: base 0x90000000 stored by `Init`, one `EraseChip` made since,
request at 0x8FFFFFFF. -/
theorem below_base_no_driver_call_witness :
    (0x8FFFFFFF : Nat) < 0x90000000 ∧
    (EraseSector simOk 0x8FFFFFFF
        (run simOk [Op.EraseChip] (Init simOk 0x90000000 0 1 simStart).2)
      = (1, run simOk [Op.EraseChip] (Init simOk 0x90000000 0 1 simStart).2) ∧
     ProgramPage simOk 0x8FFFFFFF 256 0
        (run simOk [Op.EraseChip] (Init simOk 0x90000000 0 1 simStart).2)
      = (1, run simOk [Op.EraseChip] (Init simOk 0x90000000 0 1 simStart).2) ∧
     newEvents (run simOk [Op.EraseChip] (Init simOk 0x90000000 0 1 simStart).2)
      (EraseSector simOk 0x8FFFFFFF
        (run simOk [Op.EraseChip] (Init simOk 0x90000000 0 1 simStart).2)).2 = [] ∧
     newEvents (run simOk [Op.EraseChip] (Init simOk 0x90000000 0 1 simStart).2)
      (ProgramPage simOk 0x8FFFFFFF 256 0
        (run simOk [Op.EraseChip] (Init simOk 0x90000000 0 1 simStart).2)).2 = []) :=
  ⟨by decide,
    below_base_no_driver_call simOk simStart 0x90000000 0 1 [Op.EraseChip] 0x8FFFFFFF 256 0
      (by decide)⟩

/-- Instance of C2: `Init` at 0x90000000 succeeds in the sample environment; after
a page program and a chip erase, `EraseSector 0x90001000` issues the sector
erase at device offset 0x1000. -/
theorem base_address_stable_witness :
    (Init simOk 0x90000000 0 1 simStart).1 = 0 ∧
    (0x90000000 : Nat) ≤ 0x90001000 ∧
    0x90001000 < ULONG_MOD ∧
    ((run simOk [Op.ProgramPage 0x90000100 256 0, Op.EraseChip]
        (Init simOk 0x90000000 0 1 simStart).2).devAdr = 0x90000000 ∧
     (0x90001000 - 0x90000000) + 0x90000000 = 0x90001000 ∧
     ∃ r rest,
      newEvents (run simOk [Op.ProgramPage 0x90000100 256 0, Op.EraseChip]
          (Init simOk 0x90000000 0 1 simStart).2)
        (EraseSector simOk 0x90001000
          (run simOk [Op.ProgramPage 0x90000100 256 0, Op.EraseChip]
            (Init simOk 0x90000000 0 1 simStart).2)).2
        = Event.call (Call.w25qxx_erase_sector 0x1000) r :: rest ∧
      ∀ c v, Event.call c v ∈ rest → c.isErase = false) :=
  ⟨by decide, by decide, by decide,
    base_address_stable simOk simStart 0x90000000 0 1
      [Op.ProgramPage 0x90000100 256 0, Op.EraseChip] 0x90001000
      (by decide) (by decide) (by decide)⟩

/-- Instance of C3: one page of 256 bytes at 0x90000100 with base 0x90000000. -/
theorem ProgramPage_command_witness :
    simReady.devAdr ≤ 0x90000100 ∧
    0x90000100 < ULONG_MOD ∧
    (newEvents simReady (ProgramPage simOk 0x90000100 256 0x20000000 simReady).2 =
      [Event.call (Call.w25qxx_page_program 0x20000000 (0x90000100 - simReady.devAdr) 256)
        (simOk.exec (Call.w25qxx_page_program 0x20000000
          (0x90000100 - simReady.devAdr) 256) simReady.world).1] ∧
     (0x90000100 - simReady.devAdr) + simReady.devAdr = 0x90000100 ∧
     (ProgramPage simOk 0x90000100 256 0x20000000 simReady).2.world =
      (simOk.exec (Call.w25qxx_page_program 0x20000000
        (0x90000100 - simReady.devAdr) 256) simReady.world).2 ∧
     ((simOk.exec (Call.w25qxx_page_program 0x20000000
        (0x90000100 - simReady.devAdr) 256) simReady.world).1 = 0 →
      (ProgramPage simOk 0x90000100 256 0x20000000 simReady).1 = 0) ∧
     ((simOk.exec (Call.w25qxx_page_program 0x20000000
        (0x90000100 - simReady.devAdr) 256) simReady.world).1 ≠ 0 →
      (ProgramPage simOk 0x90000100 256 0x20000000 simReady).1 = 1)) :=
  ⟨by decide, by decide,
    ProgramPage_command simOk simReady 0x90000100 256 0x20000000 (by decide) (by decide)⟩

/-- Instance of the amended C5: foreign device, then `EraseSector 0x90001000`. -/
theorem failed_Init_does_not_gate_witness :
    (Init simBad 0x90000000 0 1 simStart).1 = 1 ∧
    (∃ v, Event.call Call.w25qxx_read_deviceid v ∈
      newEvents simStart (Init simBad 0x90000000 0 1 simStart).2 ∧ v ≠ DEVICE_ID) ∧
    ((∀ c r, Event.call c r ∈ newEvents simStart (Init simBad 0x90000000 0 1 simStart).2 →
      c.isErase = false ∧ c.isProgram = false) ∧
     ((∀ c r, Event.call c r ∈
        newEvents (run simBad [] (Init simBad 0x90000000 0 1 simStart).2)
          ((Op.EraseSector 0x90001000).exec simBad
            (run simBad [] (Init simBad 0x90000000 0 1 simStart).2)).2 →
        c.isErase = false ∧ c.isProgram = false) ↔
      (Op.EraseSector 0x90001000).belowBase 0x90000000)) :=
  have hid : ∃ v, Event.call Call.w25qxx_read_deviceid v ∈
      newEvents simStart (Init simBad 0x90000000 0 1 simStart).2 ∧ v ≠ DEVICE_ID :=
    ⟨0, by simp [newEvents, Init, call, store_devAdr, zeroLoop, store_hqspi, simStart,
      simBad, simEnv, DEVICE_ID], by decide⟩
  ⟨by decide, hid,
    failed_Init_does_not_gate simBad simStart 0x90000000 0 1 [] (Op.EraseSector 0x90001000)
      (by decide) hid⟩

/-- Instance of C6: the sample environment sets its flag on every successful
memory-mapped command. -/
theorem read_mapped_after_erase_witness :
    (∀ w, (simOk.exec Call.w25qxx_memory_mapped w).1 = 0 →
      simOk.mapped (simOk.exec Call.w25qxx_memory_mapped w).2 = true) ∧
    (((EraseSector simOk 0x90001000 simReady).1 = 0 →
        simOk.mapped (EraseSector simOk 0x90001000 simReady).2.world = true) ∧
     ((EraseChip simOk simReady).1 = 0 →
        simOk.mapped (EraseChip simOk simReady).2.world = true) ∧
     (simOk.mapped (EraseSector simOk 0x90001000 simReady).2.world = true ∨
        (EraseSector simOk 0x90001000 simReady).1 = 1) ∧
     (simOk.mapped (EraseChip simOk simReady).2.world = true ∨
        (EraseChip simOk simReady).1 = 1) ∧
     ((ProgramPage simOk 0x90000100 256 0x20000000 simReady).1 = 0 →
      ∀ r, Event.call Call.w25qxx_memory_mapped r ∉
        newEvents simReady (ProgramPage simOk 0x90000100 256 0x20000000 simReady).2)) :=
  ⟨fun _ _ => rfl,
    read_mapped_after_erase simOk simReady 0x90001000 0x90000100 256 0x20000000
      (fun _ _ => rfl)⟩

/-- Instance of C9: erase succeeds, the memory-mapped command returns 1. -/
theorem erase_failure_no_rollback_witness :
    simReady.devAdr ≤ 0x90001000 ∧
    0x90001000 < ULONG_MOD ∧
    (((simMapFails.exec (Call.w25qxx_erase_sector (0x90001000 - simReady.devAdr))
          simReady.world).1 = 0 →
      (simMapFails.exec Call.w25qxx_memory_mapped
        (simMapFails.exec (Call.w25qxx_erase_sector (0x90001000 - simReady.devAdr))
          simReady.world).2).1 ≠ 0 →
      (EraseSector simMapFails 0x90001000 simReady).1 = 1 ∧
      newEvents simReady (EraseSector simMapFails 0x90001000 simReady).2 =
        [Event.call (Call.w25qxx_erase_sector (0x90001000 - simReady.devAdr)) 0,
         Event.call Call.w25qxx_memory_mapped (simMapFails.exec Call.w25qxx_memory_mapped
          (simMapFails.exec (Call.w25qxx_erase_sector (0x90001000 - simReady.devAdr))
            simReady.world).2).1] ∧
      (EraseSector simMapFails 0x90001000 simReady).2.world =
        (simMapFails.exec Call.w25qxx_memory_mapped
          (simMapFails.exec (Call.w25qxx_erase_sector (0x90001000 - simReady.devAdr))
            simReady.world).2).2) ∧
     ((simMapFails.exec (Call.w25qxx_erase_sector (0x90001000 - simReady.devAdr))
          simReady.world).1 ≠ 0 →
      (EraseSector simMapFails 0x90001000 simReady).1 = 1 ∧
      newEvents simReady (EraseSector simMapFails 0x90001000 simReady).2 =
        [Event.call (Call.w25qxx_erase_sector (0x90001000 - simReady.devAdr))
          (simMapFails.exec (Call.w25qxx_erase_sector (0x90001000 - simReady.devAdr))
            simReady.world).1]) ∧
     ((simMapFails.exec Call.w25qxx_erase_chip simReady.world).1 = 0 →
      (simMapFails.exec Call.w25qxx_memory_mapped
        (simMapFails.exec Call.w25qxx_erase_chip simReady.world).2).1 ≠ 0 →
      (EraseChip simMapFails simReady).1 = 1 ∧
      newEvents simReady (EraseChip simMapFails simReady).2 =
        [Event.call Call.w25qxx_erase_chip 0,
         Event.call Call.w25qxx_memory_mapped (simMapFails.exec Call.w25qxx_memory_mapped
          (simMapFails.exec Call.w25qxx_erase_chip simReady.world).2).1] ∧
      (EraseChip simMapFails simReady).2.world =
        (simMapFails.exec Call.w25qxx_memory_mapped
          (simMapFails.exec Call.w25qxx_erase_chip simReady.world).2).2) ∧
     ((simMapFails.exec Call.w25qxx_erase_chip simReady.world).1 ≠ 0 →
      (EraseChip simMapFails simReady).1 = 1 ∧
      newEvents simReady (EraseChip simMapFails simReady).2 =
        [Event.call Call.w25qxx_erase_chip
          (simMapFails.exec Call.w25qxx_erase_chip simReady.world).1])) :=
  ⟨by decide, by decide,
    erase_failure_no_rollback simMapFails simReady 0x90001000 (by decide) (by decide)⟩

/-- Instance of C10: the state left by a failed `Init` at 0x90000000 against the
state left by a successful `Init` at 0x08000000, same teardown results. -/
theorem UnInit_independent_of_session_witness :
    (∀ c r1 r2, c.isTeardown = true →
      Event.call c r1 ∈ newEvents (Init simBad 0x90000000 0 1 simStart).2
        (UnInit simOk 1 (Init simBad 0x90000000 0 1 simStart).2).2 →
      Event.call c r2 ∈ newEvents (Init simOk 0x08000000 0 2 simStart).2
        (UnInit simOk 1 (Init simOk 0x08000000 0 2 simStart).2).2 →
      (r1 = simOk.HAL_OK ↔ r2 = simOk.HAL_OK)) ∧
    ((newEvents (Init simBad 0x90000000 0 1 simStart).2
        (UnInit simOk 1 (Init simBad 0x90000000 0 1 simStart).2).2).filterMap Event.callOf =
      (newEvents (Init simOk 0x08000000 0 2 simStart).2
        (UnInit simOk 1 (Init simOk 0x08000000 0 2 simStart).2).2).filterMap Event.callOf ∧
     (UnInit simOk 1 (Init simBad 0x90000000 0 1 simStart).2).1 =
      (UnInit simOk 1 (Init simOk 0x08000000 0 2 simStart).2).1 ∧
     ((UnInit simOk 1 (Init simBad 0x90000000 0 1 simStart).2).1 = 0 ∨
      (UnInit simOk 1 (Init simBad 0x90000000 0 1 simStart).2).1 = 1) ∧
     ((UnInit simOk 1 (Init simBad 0x90000000 0 1 simStart).2).1 = 1 →
      ∃ c r, c.isTeardown = true ∧ r ≠ simOk.HAL_OK ∧
        Event.call c r ∈ newEvents (Init simBad 0x90000000 0 1 simStart).2
          (UnInit simOk 1 (Init simBad 0x90000000 0 1 simStart).2).2) ∧
     (UnInit simOk 1 (Init simBad 0x90000000 0 1 simStart).2).2.devAdr =
      (Init simBad 0x90000000 0 1 simStart).2.devAdr ∧
     (UnInit simOk 1 (Init simOk 0x08000000 0 2 simStart).2).2.devAdr =
      (Init simOk 0x08000000 0 2 simStart).2.devAdr) :=
  have hres : ∀ c r1 r2, c.isTeardown = true →
      Event.call c r1 ∈ newEvents (Init simBad 0x90000000 0 1 simStart).2
        (UnInit simOk 1 (Init simBad 0x90000000 0 1 simStart).2).2 →
      Event.call c r2 ∈ newEvents (Init simOk 0x08000000 0 2 simStart).2
        (UnInit simOk 1 (Init simOk 0x08000000 0 2 simStart).2).2 →
      (r1 = simOk.HAL_OK ↔ r2 = simOk.HAL_OK) := by
    intro c r1 r2 hc h1 h2
    simp [newEvents, UnInit, Init, call, store_devAdr, zeroLoop, store_hqspi, simStart,
      simOk, simBad, simEnv, DEVICE_ID] at h1 h2
    rcases h1 with h1 | h1 | h1 | h1 | h1 | h1 | h1 <;>
      rcases h2 with h2 | h2 | h2 | h2 | h2 | h2 | h2 <;>
        simp [h1.2, h2.2, simOk, simEnv]
  ⟨hres, UnInit_independent_of_session simOk 1 (Init simBad 0x90000000 0 1 simStart).2
    (Init simOk 0x08000000 0 2 simStart).2 hres⟩

end FlashPrg
